import Mathlib

/-!
# pyLikelihood adapter shims: `Aeff`, `enableFPE`, `StAppInterface`

A shallow embedding of the three header-only adapters of pyLikelihood
(`pyLikelihood/Aeff.h`, `pyLikelihood/enableFPE.h`, `src/StAppInterface.h`).

The adapters contain no arithmetic: they call into external libraries
(`irfLoader`, `irfInterface`, `st_app`, `<fenv.h>`) and pass values through.
The embedding therefore makes the external world explicit:

* a `World` holds the ordered trace of external calls made so far and the
  process-wide floating-point trap mask;
* the external libraries are a record `Extern` of oracles; each oracle sees
  the trace of calls made before it, so its answer may depend on everything
  that happened earlier (for instance on whether `Loader_go` already ran);
* a C++ function body is a `Prog`: a function from the world to an `Outcome`
  (normal return, propagating exception, undefined behaviour, or abort) and
  the world afterwards.

`double` values are never inspected by the adapters, so they are an arbitrary
type `D`; the only constant needed is the default azimuth `0`.
-/

namespace pyLikelihood

/-! ## Outcomes, events, world -/

/-- C++ exceptions that can travel through the adapters. -/
inductive Exn where
  /-- A `std::runtime_error` carrying its `what()` text. -/
  | runtime_error (what : String)
  /-- Any other exception thrown by external code, identified by class and text. -/
  | other (cls : String) (what : String)
  deriving DecidableEq, Repr

/-- How the execution of a C++ function body ends. -/
inductive Outcome (β : Type) where
  /-- Normal return with a value. -/
  | ret (v : β)
  /-- An exception leaves the function and reaches the caller. -/
  | raise (e : Exn)
  /-- Undefined behaviour: a null pointer was dereferenced. -/
  | undef
  /-- The process is terminated (an exception met a `throw()` specification). -/
  | abort
  deriving DecidableEq, Repr

/-- Address of a live `irfInterface::Irfs` object. -/
abbrev Handle := Nat

/-- An `irfInterface::Irfs *`: `none` is the null pointer. -/
abbrev Ptr := Option Handle

/-- External calls made by the adapters, with their arguments. -/
inductive Event (D : Type) where
  /-- The call `irfLoader::Loader_go()`. -/
  | loaderGo
  /-- The call `irfInterface::IrfsFactory::instance()->create(name)`. -/
  | create (name : String)
  /-- The call `h->aeff()->value(energy, theta, phi)` on a non-null `h`. -/
  | aeffValue (h : Handle) (energy theta phi : D)
  /-- The expression `delete h` on a non-null `h`. -/
  | delete (h : Handle)
  /-- The base-class constructor `st_app::StApp()`. -/
  | stAppCtor
  /-- The call `st_app::StApp::getParGroup(name)`. -/
  | getParGroup (name : String)
  deriving DecidableEq, Repr

/-- Process-wide state observable through the adapters. -/
structure World (D : Type) where
  /-- External calls made so far, oldest first. -/
  trace : List (Event D)
  /-- Bit mask of the floating-point exceptions whose hardware trap is enabled. -/
  fpTraps : Nat
  deriving DecidableEq, Repr

/-- The world after one more external call has been recorded. -/
def World.log {D : Type} (w : World D) (ev : Event D) : World D :=
  { w with trace := w.trace ++ [ev] }

/-- The external libraries the adapters delegate to. Every oracle receives the
trace of the external calls made before it and either returns or throws. -/
structure Extern (D P : Type) where
  /-- Behaviour of `irfLoader::Loader_go()`. -/
  Loader_go : List (Event D) → Except Exn Unit
  /-- Behaviour of `IrfsFactory::instance()->create(name)`; the returned pointer may be null. -/
  create : List (Event D) → String → Except Exn Ptr
  /-- Behaviour of `h->aeff()->value(energy, theta, phi)`. -/
  aeffValue : List (Event D) → Handle → D → D → D → Except Exn D
  /-- Behaviour of `delete h` (the destructor of the external object). -/
  delete : List (Event D) → Handle → Except Exn Unit
  /-- Behaviour of the base-class constructor `st_app::StApp()`. -/
  stAppCtor : List (Event D) → Except Exn Unit
  /-- Behaviour of the store lookup `st_app::StApp::getParGroup(name)`. -/
  getParGroup : List (Event D) → String → Except Exn P

/-- Result of an external call seen as the outcome of the calling expression. -/
def Outcome.ofExcept {β : Type} : Except Exn β → Outcome β
  | .ok v => .ret v
  | .error e => .raise e

/-! ## Programs -/

/-- A C++ function body: from the world before to the outcome and the world after. -/
def Prog (D β : Type) : Type := World D → Outcome β × World D

namespace Prog

variable {D β γ : Type}

/-- Return a value, touching nothing. -/
def ret (v : β) : Prog D β := fun w => (.ret v, w)

/-- Sequencing: the continuation runs only after a normal return. -/
def bind (m : Prog D β) (f : β → Prog D γ) : Prog D γ := fun w =>
  match m w with
  | (.ret v, w1) => f v w1
  | (.raise e, w1) => (.raise e, w1)
  | (.undef, w1) => (.undef, w1)
  | (.abort, w1) => (.abort, w1)

/-- The statement `throw e`. -/
def throwExn (e : Exn) : Prog D β := fun w => (.raise e, w)

/-- The block `try { body } catch (...) { handler }`: every exception leaving
`body` is caught; other outcomes pass through. -/
def tryCatchAll (body : Prog D β) (handler : Prog D β) : Prog D β := fun w =>
  match body w with
  | (.raise _, w1) => handler w1
  | (.ret v, w1) => (.ret v, w1)
  | (.undef, w1) => (.undef, w1)
  | (.abort, w1) => (.abort, w1)

/-- The exception specification `throw()`: an exception leaving `body`
terminates the process instead of reaching the caller. -/
def throwNone (body : Prog D β) : Prog D β := fun w =>
  match body w with
  | (.raise _, w1) => (.abort, w1)
  | (.ret v, w1) => (.ret v, w1)
  | (.undef, w1) => (.undef, w1)
  | (.abort, w1) => (.abort, w1)

/-- An external call: the oracle answers from the trace so far, and the call
is appended to the trace whether it returns or throws. -/
def extCall (ev : Event D) (oracle : List (Event D) → Except Exn β) : Prog D β := fun w =>
  (Outcome.ofExcept (oracle w.trace), w.log ev)

/-- The dereference `p->`: undefined when `p` is null. -/
def deref (p : Ptr) : Prog D Handle := fun w =>
  match p with
  | some h => (.ret h, w)
  | none => (.undef, w)

end Prog

instance {D : Type} : Monad (Prog D) where
  pure := Prog.ret
  bind := Prog.bind

/-! ## `pyLikelihood/Aeff.h` -/

/-- The class `Aeff`: its two private members. -/
structure Aeff where
  /-- The member `irfInterface::Irfs * m_front`. -/
  m_front : Ptr
  /-- The member `irfInterface::Irfs * m_back`. -/
  m_back : Ptr
  deriving DecidableEq, Repr

section AeffOps

variable {D P : Type}

/-- The constructor `Aeff::Aeff(const std::string & irfName)`. The members
start as null pointers and are assigned one after the other; an object exists
for the caller only when the body returns, and the destructor does not run for
a construction that throws. -/
def Aeff.ctor (x : Extern D P) (irfName : String) : Prog D Aeff := do
  let _ ← Prog.extCall .loaderGo x.Loader_go
  let front ← Prog.extCall (.create (irfName ++ "::FRONT"))
    (fun t => x.create t (irfName ++ "::FRONT"))
  let back ← Prog.extCall (.create (irfName ++ "::BACK"))
    (fun t => x.create t (irfName ++ "::BACK"))
  pure { m_front := front, m_back := back }

/-- The expression `delete p`: nothing happens for a null pointer, otherwise
the external destructor runs. -/
def deletePtr (x : Extern D P) (p : Ptr) : Prog D Unit :=
  match p with
  | none => pure ()
  | some h => Prog.extCall (.delete h) (fun t => x.delete t h)

/-- The destructor `Aeff::~Aeff() throw()`. -/
def Aeff.dtor (x : Extern D P) (self : Aeff) : Prog D Unit :=
  Prog.throwNone
    (Prog.tryCatchAll
      (do
        deletePtr x self.m_front
        deletePtr x self.m_back)
      (pure ()))

/-- The lifetime of an accessor held by a caller, as C++ fixes it for a block
`{ Aeff a(irfName); use(a); }`: when the constructor throws there is no object
and the destructor does not run; otherwise the destructor runs when `use`
returns and also, during unwinding, when `use` throws. -/
def Aeff.lifetime {β : Type} (x : Extern D P) (irfName : String) (use : Aeff → Prog D β) :
    Prog D β := do
  let a ← Aeff.ctor x irfName
  fun w1 =>
    match use a w1 with
    | (.ret v, w2) => (Aeff.dtor x a >>= fun _ => Prog.ret v) w2
    | (.raise e, w2) => (Aeff.dtor x a >>= fun _ => Prog.throwExn e) w2
    | (.undef, w2) => (.undef, w2)
    | (.abort, w2) => (.abort, w2)

/-- The query `Aeff::operator()(energy, theta, convtype, phi=0) const`.
The trailing argument is `none` when the caller omits it; the default `0`
is then supplied. -/
def Aeff.call [Zero D] (x : Extern D P) (self : Aeff) (energy theta : D) (convtype : Int)
    (phi : Option D) : Prog D D :=
  let phi := phi.getD 0
  if convtype = 0 then do
    let h ← Prog.deref self.m_front
    Prog.extCall (.aeffValue h energy theta phi) (fun t => x.aeffValue t h energy theta phi)
  else if convtype = 1 then do
    let h ← Prog.deref self.m_back
    Prog.extCall (.aeffValue h energy theta phi) (fun t => x.aeffValue t h energy theta phi)
  else
    Prog.throwExn (.runtime_error "invalid conversion type")

end AeffOps

/-! ## `pyLikelihood/enableFPE.h` -/

/-- The exception macros of `<fenv.h>` used or excluded by `enableFPE`; their
values are fixed by the platform, so they are parameters here. -/
structure Fenv where
  /-- The macro `FE_INVALID`. -/
  FE_INVALID : Nat
  /-- The macro `FE_DIVBYZERO`. -/
  FE_DIVBYZERO : Nat
  /-- The macro `FE_OVERFLOW`. -/
  FE_OVERFLOW : Nat
  /-- The macro `FE_UNDERFLOW`. -/
  FE_UNDERFLOW : Nat
  /-- The macro `FE_INEXACT`. -/
  FE_INEXACT : Nat
  deriving DecidableEq, Repr

/-- The values of the macros on x86 and x86-64 glibc. -/
def Fenv.x86 : Fenv :=
  { FE_INVALID := 0x01, FE_DIVBYZERO := 0x04, FE_OVERFLOW := 0x08,
    FE_UNDERFLOW := 0x10, FE_INEXACT := 0x20 }

section FpeOps

variable {D : Type}

/-- The glibc function `feenableexcept(excepts)`: the traps of the exceptions
in `excepts` are enabled in addition to those already enabled, and the
previous mask is returned. -/
def feenableexcept (excepts : Nat) : Prog D Nat := fun w =>
  (.ret w.fpTraps, { w with fpTraps := w.fpTraps ||| excepts })

/-- The function `void enableFPE()`; `TRAP_FPE` tells whether the build
defines the preprocessor symbol of that name. -/
def enableFPE (TRAP_FPE : Bool) (c : Fenv) : Prog D Unit :=
  if TRAP_FPE then do
    let _ ← feenableexcept (c.FE_INVALID ||| c.FE_DIVBYZERO ||| c.FE_OVERFLOW)
    pure ()
  else
    Prog.throwExn (.runtime_error
      ("Floating point exception trapping " ++ "cannot be enabled for this build."))

end FpeOps

/-! ## `src/StAppInterface.h` -/

/-- The class `StAppInterface`: its private member. -/
structure StAppInterface where
  /-- The member `const std::string m_appName`. -/
  m_appName : String
  deriving DecidableEq, Repr

section StAppOps

variable {D P : Type}

/-- The constructor `StAppInterface(const std::string & appName)`: the base
class is constructed, then the name is stored. -/
def StAppInterface.ctor (x : Extern D P) (appName : String) : Prog D StAppInterface := do
  Prog.extCall .stAppCtor x.stAppCtor
  pure { m_appName := appName }

/-- The member function `virtual void run() {}`. It is not `const`, so the
object after the call is returned next to the result. -/
def StAppInterface.run (self : StAppInterface) : Prog D (Unit × StAppInterface) :=
  pure ((), self)

/-- The member function `getParGroup()`. It is not `const`, so the object
after the call is returned next to the result. -/
def StAppInterface.getParGroup (x : Extern D P) (self : StAppInterface) :
    Prog D (P × StAppInterface) := do
  let g ← Prog.extCall (.getParGroup self.m_appName)
    (fun t => x.getParGroup t self.m_appName)
  pure (g, self)

end StAppOps

/-! ## Concrete environments -/

/-- An empty process: no external call made yet, no trap enabled. -/
def World.initial : World Int := { trace := [], fpTraps := 0 }

/-- An environment with one registered response set: the factory hands out
handle 1 for `P6_V3::FRONT`, handle 2 for `P6_V3::BACK` and throws on every
other name; the front response is `energy + theta + phi`, the back response
`energy - theta - phi`; releases and the parameter store succeed. -/
def Extern.healthy : Extern Int String where
  Loader_go := fun _ => .ok ()
  create := fun _ name =>
    if name = "P6_V3::FRONT" then .ok (some 1)
    else if name = "P6_V3::BACK" then .ok (some 2)
    else .error (.other "std::invalid_argument" name)
  aeffValue := fun _ h energy theta phi =>
    .ok (if h = 1 then energy + theta + phi else energy - theta - phi)
  delete := fun _ _ => .ok ()
  stAppCtor := fun _ => .ok ()
  getParGroup := fun _ name => .ok (name ++ ".par")

/-- An environment whose factory knows no name and answers every `create`
with a null pointer. -/
def Extern.nullFactory : Extern Int String :=
  { Extern.healthy with create := fun _ _ => .ok none }

/-- An environment whose factory resolves only `P6_V3::FRONT` and throws on
every other name. -/
def Extern.backMissing : Extern Int String :=
  { Extern.healthy with
    create := fun _ name =>
      if name = "P6_V3::FRONT" then .ok (some 1)
      else .error (.other "std::invalid_argument" name) }

/-- An environment in which releasing handle 1 throws. -/
def Extern.frontReleaseThrows : Extern Int String :=
  { Extern.healthy with
    delete := fun _ h => if h = 1 then .error (.other "std::exception" "release") else .ok () }

/-! ## Theorems -/

section AeffTheorems

variable {D P : Type}

/-- C1: on an accessor whose front and back handles are resolved, the query
with `convtype = 0` has exactly the outcome of the front handle's
`aeff value(energy, theta, phi)`, and with `convtype = 1` exactly that of the
back handle; the single external call it makes carries the three arguments
unchanged and in that order. -/
theorem Aeff_call_dispatch [Zero D] (x : Extern D P) (f b : Handle)
    (energy theta phi : D) (w : World D) :
    Aeff.call x { m_front := some f, m_back := some b } energy theta 0 (some phi) w
        = (Outcome.ofExcept (x.aeffValue w.trace f energy theta phi),
           w.log (.aeffValue f energy theta phi))
    ∧ Aeff.call x { m_front := some f, m_back := some b } energy theta 1 (some phi) w
        = (Outcome.ofExcept (x.aeffValue w.trace b energy theta phi),
           w.log (.aeffValue b energy theta phi)) := by
  constructor <;> rfl

/-- C2: for every `convtype` other than 0 and 1, negative values included,
the query throws `std::runtime_error("invalid conversion type")` whatever the
accessor and the other arguments are; the world is left as it was, so neither
handle is queried. -/
theorem Aeff_call_invalid_convtype [Zero D] (x : Extern D P) (self : Aeff)
    (energy theta : D) (convtype : Int) (phi : Option D) (w : World D)
    (h0 : convtype ≠ 0) (h1 : convtype ≠ 1) :
    Aeff.call x self energy theta convtype phi w
      = (.raise (.runtime_error "invalid conversion type"), w) := by
  simp [Aeff.call, h0, h1, Prog.throwExn]

/-- Witness of C2 at `convtype = -1` on an accessor with both handles resolved. -/
theorem Aeff_call_invalid_convtype_witness :
    Aeff.call Extern.healthy { m_front := some 1, m_back := some 2 } 100 5 (-1) (some 7)
        World.initial
      = (.raise (.runtime_error "invalid conversion type"), World.initial) :=
  Aeff_call_invalid_convtype Extern.healthy { m_front := some 1, m_back := some 2 }
    100 5 (-1) (some 7) World.initial (by decide) (by decide)

/-- C3: the query with the azimuth omitted is the same program (same outcome,
same world afterwards) as the query with `phi = 0` passed explicitly. -/
theorem Aeff_call_default_phi [Zero D] (x : Extern D P) (self : Aeff)
    (energy theta : D) (convtype : Int) (w : World D) :
    Aeff.call x self energy theta convtype none w
      = Aeff.call x self energy theta convtype (some 0) w := by
  rfl

/-- Counterexample to C4 as stated: with a factory that answers every `create`
with a null pointer, construction returns an accessor holding two null
handles, and it is the first query on that accessor that goes wrong. -/
theorem Aeff_ctor_null_counterexample :
    Extern.nullFactory.create [.loaderGo] "P6_V3::FRONT" = .ok none
    ∧ Extern.nullFactory.create [.loaderGo, .create "P6_V3::FRONT"] "P6_V3::BACK" = .ok none
    ∧ (Aeff.ctor Extern.nullFactory "P6_V3" World.initial).1
        = .ret { m_front := none, m_back := none }
    ∧ (Aeff.call Extern.nullFactory { m_front := none, m_back := none } 100 5 0 none
        (Aeff.ctor Extern.nullFactory "P6_V3" World.initial).2).1 = .undef := by
  refine ⟨rfl, rfl, ?_, ?_⟩ <;> decide

/-- C4 (amended): when the factory throws while resolving `<name>::FRONT` or
`<name>::BACK`, construction fails with an exception and no accessor is
produced. When the load step and both lookups return, construction completes
and stores whatever pointers the factory returned, null ones included; a query
that selects a null handle is then undefined. -/
theorem Aeff_ctor_create_failure [Zero D] (x : Extern D P) (n : String) (w : World D) :
    (∀ e,
      (x.create (w.trace ++ [.loaderGo]) (n ++ "::FRONT") = .error e
        ∨ x.create (w.trace ++ [.loaderGo, .create (n ++ "::FRONT")]) (n ++ "::BACK")
            = .error e) →
      ∃ e1, (Aeff.ctor x n w).1 = .raise e1)
    ∧ (∀ pf pb,
      x.Loader_go w.trace = .ok () →
      x.create (w.trace ++ [.loaderGo]) (n ++ "::FRONT") = .ok pf →
      x.create (w.trace ++ [.loaderGo, .create (n ++ "::FRONT")]) (n ++ "::BACK") = .ok pb →
      (Aeff.ctor x n w).1 = .ret { m_front := pf, m_back := pb })
    ∧ (∀ (p : Ptr) (energy theta : D) (phi : Option D) (w1 : World D),
      Aeff.call x { m_front := none, m_back := p } energy theta 0 phi w1 = (.undef, w1)
      ∧ Aeff.call x { m_front := p, m_back := none } energy theta 1 phi w1 = (.undef, w1)) := by
  refine ⟨?_, ?_, ?_⟩
  · intro e h
    cases hL : x.Loader_go w.trace with
    | error e0 =>
      exact ⟨e0, by simp [Aeff.ctor, bind, Prog.bind, Prog.extCall, Outcome.ofExcept, hL]⟩
    | ok u =>
      cases hF : x.create (w.trace ++ [.loaderGo]) (n ++ "::FRONT") with
      | error e0 =>
        exact ⟨e0, by
          simp [Aeff.ctor, bind, Prog.bind, Prog.extCall, Outcome.ofExcept, World.log, hL, hF]⟩
      | ok pf =>
        rcases h with h | h
        · rw [hF] at h
          cases h
        · exact ⟨e, by
            simp [Aeff.ctor, bind, Prog.bind, Prog.extCall, Outcome.ofExcept, World.log,
              hL, hF, h]⟩
  · intro pf pb hL hF hB
    simp [Aeff.ctor, bind, Prog.bind, Prog.extCall, Outcome.ofExcept, World.log, hL, hF, hB,
      pure, Prog.ret]
  · intro p energy theta phi w1
    constructor <;> rfl

/-- Witness of C4 (amended): a factory that throws on `P6_V3::BACK` makes the
construction fail, and a factory that returns null pointers lets it complete. -/
theorem Aeff_ctor_create_failure_witness :
    (∃ e1, (Aeff.ctor Extern.backMissing "P6_V3" World.initial).1 = .raise e1)
    ∧ (Aeff.ctor Extern.nullFactory "P6_V3" World.initial).1
        = .ret { m_front := none, m_back := none } :=
  ⟨(Aeff_ctor_create_failure Extern.backMissing "P6_V3" World.initial).1
      (.other "std::invalid_argument" "P6_V3::BACK") (Or.inr rfl),
   (Aeff_ctor_create_failure Extern.nullFactory "P6_V3" World.initial).2.1
      none none rfl rfl rfl⟩

/-- C5: construction appends to the trace a non-empty initial part of the
three calls `Loader_go`, `create(n ++ "::FRONT")`, `create(n ++ "::BACK")`, so
the load step is always first and no lookup precedes it. A construction that
completes has made exactly these three calls and stores the first lookup's
pointer as front handle and the second lookup's pointer as back handle; and
it does complete whenever the three calls return. -/
theorem Aeff_ctor_load_then_lookups (x : Extern D P) (n : String) (w : World D) :
    (∃ k, 1 ≤ k ∧ (Aeff.ctor x n w).2.trace
        = w.trace ++ List.take k
            [.loaderGo, .create (n ++ "::FRONT"), .create (n ++ "::BACK")])
    ∧ (Aeff.ctor x n w).2.fpTraps = w.fpTraps
    ∧ (∀ a, (Aeff.ctor x n w).1 = .ret a →
        (Aeff.ctor x n w).2.trace
            = w.trace ++ [.loaderGo, .create (n ++ "::FRONT"), .create (n ++ "::BACK")]
        ∧ x.Loader_go w.trace = .ok ()
        ∧ x.create (w.trace ++ [.loaderGo]) (n ++ "::FRONT") = .ok a.m_front
        ∧ x.create (w.trace ++ [.loaderGo, .create (n ++ "::FRONT")]) (n ++ "::BACK")
            = .ok a.m_back)
    ∧ (∀ pf pb,
        x.Loader_go w.trace = .ok () →
        x.create (w.trace ++ [.loaderGo]) (n ++ "::FRONT") = .ok pf →
        x.create (w.trace ++ [.loaderGo, .create (n ++ "::FRONT")]) (n ++ "::BACK") = .ok pb →
        Aeff.ctor x n w
          = (.ret { m_front := pf, m_back := pb },
             { trace := w.trace
                 ++ [.loaderGo, .create (n ++ "::FRONT"), .create (n ++ "::BACK")],
               fpTraps := w.fpTraps })) := by
  cases hL : x.Loader_go w.trace with
  | error e0 =>
    refine ⟨⟨1, le_refl 1, ?_⟩, ?_, ?_, ?_⟩ <;>
      simp [Aeff.ctor, bind, Prog.bind, Prog.extCall, Outcome.ofExcept, World.log, hL]
  | ok u =>
    cases hF : x.create (w.trace ++ [.loaderGo]) (n ++ "::FRONT") with
    | error e0 =>
      refine ⟨⟨2, by decide, ?_⟩, ?_, ?_, ?_⟩ <;>
        simp [Aeff.ctor, bind, Prog.bind, Prog.extCall, Outcome.ofExcept, World.log, hL, hF]
    | ok pf =>
      cases hB : x.create (w.trace ++ [.loaderGo, .create (n ++ "::FRONT")]) (n ++ "::BACK") with
      | error e0 =>
        refine ⟨⟨3, by decide, ?_⟩, ?_, ?_, ?_⟩ <;>
          simp [Aeff.ctor, bind, Prog.bind, Prog.extCall, Outcome.ofExcept, World.log,
            hL, hF, hB]
      | ok pb =>
        refine ⟨⟨3, by decide, ?_⟩, ?_, ?_, ?_⟩ <;>
          simp [Aeff.ctor, bind, Prog.bind, Prog.extCall, Outcome.ofExcept, World.log,
            hL, hF, hB, pure, Prog.ret]

/-- Witness of C5: the construction of `Aeff("P6_V3")` in the environment with
that response set registered completes with handles 1 and 2 after the calls
`Loader_go`, `create("P6_V3::FRONT")`, `create("P6_V3::BACK")`. -/
theorem Aeff_ctor_load_then_lookups_witness :
    (Aeff.ctor Extern.healthy "P6_V3" World.initial).1
        = .ret { m_front := some 1, m_back := some 2 }
    ∧ (Aeff.ctor Extern.healthy "P6_V3" World.initial).2.trace
        = [.loaderGo, .create "P6_V3::FRONT", .create "P6_V3::BACK"]
    ∧ Extern.healthy.create [.loaderGo] "P6_V3::FRONT" = .ok (some 1)
    ∧ Extern.healthy.create [.loaderGo, .create "P6_V3::FRONT"] "P6_V3::BACK"
        = .ok (some 2) :=
  have h := (Aeff_ctor_load_then_lookups Extern.healthy "P6_V3" World.initial).2.2.1
    { m_front := some 1, m_back := some 2 } (by decide)
  ⟨by decide, h.1, h.2.2.1, h.2.2.2⟩

/-- C6: teardown returns normally for every accessor and every behaviour of
the release operations: no exception reaches the caller, and the `throw()`
specification never has to terminate the process. -/
theorem Aeff_dtor_never_fails (x : Extern D P) (self : Aeff) (w : World D) :
    (Aeff.dtor x self w).1 = .ret () := by
  obtain ⟨front, back⟩ := self
  cases front with
  | none =>
    cases back with
    | none => rfl
    | some b =>
      cases hB : x.delete w.trace b <;>
        simp [Aeff.dtor, deletePtr, Prog.throwNone, Prog.tryCatchAll, bind, Prog.bind, pure,
          Prog.ret, Prog.extCall, Outcome.ofExcept, hB]
  | some f =>
    cases hF : x.delete w.trace f with
    | error e0 =>
      simp [Aeff.dtor, deletePtr, Prog.throwNone, Prog.tryCatchAll, bind, Prog.bind, pure,
        Prog.ret, Prog.extCall, Outcome.ofExcept, hF]
    | ok u =>
      cases back with
      | none =>
        simp [Aeff.dtor, deletePtr, Prog.throwNone, Prog.tryCatchAll, bind, Prog.bind, pure,
          Prog.ret, Prog.extCall, Outcome.ofExcept, hF]
      | some b =>
        cases hB : x.delete (w.trace ++ [.delete f]) b <;>
          simp [Aeff.dtor, deletePtr, Prog.throwNone, Prog.tryCatchAll, bind, Prog.bind, pure,
            Prog.ret, Prog.extCall, Outcome.ofExcept, World.log, hF, hB]

/-- C7 (failing input): when the release of the front handle throws, teardown
returns normally with `delete m_front` as its only external call; the back
handle is never released. -/
theorem Aeff_dtor_skips_back_when_front_release_throws :
    Aeff.dtor Extern.frontReleaseThrows { m_front := some 1, m_back := some 2 } World.initial
      = (.ret (), { trace := [.delete 1], fpTraps := 0 })
    ∧ Event.delete 2 ∉
        (Aeff.dtor Extern.frontReleaseThrows { m_front := some 1, m_back := some 2 }
          World.initial).2.trace := by
  constructor <;> decide

/-- Teardown of an accessor with two resolved handles: both are released, in
the order front then back, when the release of the front handle returns; only
the front release is attempted when it throws. -/
theorem Aeff_dtor_trace (x : Extern D P) (f b : Handle) (w : World D) :
    (x.delete w.trace f = .ok () →
      (Aeff.dtor x { m_front := some f, m_back := some b } w).2.trace
        = w.trace ++ [.delete f, .delete b])
    ∧ (∀ e, x.delete w.trace f = .error e →
      (Aeff.dtor x { m_front := some f, m_back := some b } w).2.trace
        = w.trace ++ [.delete f]) := by
  constructor
  · intro hF
    cases hB : x.delete (w.trace ++ [.delete f]) b <;>
      simp [Aeff.dtor, deletePtr, Prog.throwNone, Prog.tryCatchAll, bind, Prog.bind, pure,
        Prog.ret, Prog.extCall, Outcome.ofExcept, World.log, hF, hB]
  · intro e hF
    simp [Aeff.dtor, deletePtr, Prog.throwNone, Prog.tryCatchAll, bind, Prog.bind, pure,
      Prog.ret, Prog.extCall, Outcome.ofExcept, World.log, hF]

/-- C11: when the load step returns, the factory resolves `<name>::FRONT` to
a handle `f` and throws `e` while resolving `<name>::BACK`, the constructor
ends with `e` reaching the caller after exactly the calls `Loader_go`,
`create(FRONT)`, `create(BACK)` in that order; no `delete f` is among them, and
because no object exists the destructor never runs: the whole lifetime of the
accessor, whatever the caller meant to do with it, ends in the same world. -/
theorem Aeff_ctor_leaks_front_when_back_raises (x : Extern D P) (n : String) (w : World D)
    (f : Handle) (e : Exn)
    (hL : x.Loader_go w.trace = .ok ())
    (hF : x.create (w.trace ++ [.loaderGo]) (n ++ "::FRONT") = .ok (some f))
    (hB : x.create (w.trace ++ [.loaderGo, .create (n ++ "::FRONT")]) (n ++ "::BACK")
        = .error e) :
    Aeff.ctor x n w
      = (.raise e,
         { trace := w.trace ++ [.loaderGo, .create (n ++ "::FRONT"), .create (n ++ "::BACK")],
           fpTraps := w.fpTraps })
    ∧ (∀ (β : Type) (use : Aeff → Prog D β),
        Aeff.lifetime x n use w
          = (.raise e,
             { trace := w.trace
                 ++ [.loaderGo, .create (n ++ "::FRONT"), .create (n ++ "::BACK")],
               fpTraps := w.fpTraps }))
    ∧ Event.delete f ∉
        ([.loaderGo, .create (n ++ "::FRONT"), .create (n ++ "::BACK")] : List (Event D)) := by
  have hC : Aeff.ctor x n w
      = (.raise e,
         { trace := w.trace ++ [.loaderGo, .create (n ++ "::FRONT"), .create (n ++ "::BACK")],
           fpTraps := w.fpTraps }) := by
    simp [Aeff.ctor, bind, Prog.bind, Prog.extCall, Outcome.ofExcept, World.log, hL, hF, hB]
  refine ⟨hC, ?_, ?_⟩
  · intro β use
    show Prog.bind (Aeff.ctor x n) _ w = _
    simp only [Prog.bind, hC]
  · simp

/-- Witness of C11: with a factory that resolves `P6_V3::FRONT` to handle 1 and
throws on `P6_V3::BACK`, the construction of `Aeff("P6_V3")` fails after the
three calls, and a lifetime that would have queried the accessor ends there
with handle 1 never deleted. -/
theorem Aeff_ctor_leaks_front_when_back_raises_witness :
    Aeff.ctor Extern.backMissing "P6_V3" World.initial
      = (.raise (.other "std::invalid_argument" "P6_V3::BACK"),
         { trace := [.loaderGo, .create "P6_V3::FRONT", .create "P6_V3::BACK"],
           fpTraps := 0 })
    ∧ Aeff.lifetime Extern.backMissing "P6_V3"
          (fun a => Aeff.call Extern.backMissing a 100 5 0 none) World.initial
      = (.raise (.other "std::invalid_argument" "P6_V3::BACK"),
         { trace := [.loaderGo, .create "P6_V3::FRONT", .create "P6_V3::BACK"],
           fpTraps := 0 }) :=
  have h := Aeff_ctor_leaks_front_when_back_raises Extern.backMissing "P6_V3" World.initial 1
    (.other "std::invalid_argument" "P6_V3::BACK") rfl rfl rfl
  ⟨h.1, h.2.1 Int (fun a => Aeff.call Extern.backMissing a 100 5 0 none)⟩

end AeffTheorems

section FpeTheorems

variable {D : Type}

/-- Enabling the traps of a mask leaves the bits of a disjoint flag as they were. -/
theorem or_mask_and_disjoint (a m u : Nat) (h : u &&& m = 0) :
    (a ||| m) &&& u = a &&& u := by
  rw [Nat.and_comm, Nat.and_or_distrib_left, h, Nat.or_zero, Nat.and_comm]

/-- Every bit of the three-flag mask is set once the mask has been or-ed in. -/
theorem or_mask_and_flag (a i d o : Nat) :
    (a ||| (i ||| d ||| o)) &&& i = i
    ∧ (a ||| (i ||| d ||| o)) &&& d = d
    ∧ (a ||| (i ||| d ||| o)) &&& o = o := by
  refine ⟨?_, ?_, ?_⟩ <;>
  · apply Nat.eq_of_testBit_eq
    intro k
    simp only [Nat.testBit_and, Nat.testBit_or]
    cases a.testBit k <;> cases i.testBit k <;> cases d.testBit k <;> cases o.testBit k <;> rfl

/-- C8: on a build without `TRAP_FPE`, every call of `enableFPE`, in every
world, throws the same `std::runtime_error` and leaves the world (trap mask
and trace) exactly as it was; so after any number of calls the world is
still the initial one and the next call fails in the same way. -/
theorem enableFPE_unavailable (c : Fenv) (w : World D) :
    enableFPE false c w
      = (.raise (.runtime_error
          "Floating point exception trapping cannot be enabled for this build."), w)
    ∧ ∀ k : Nat, (fun v : World D => (enableFPE false c v).2)^[k] w = w := by
  have h1 : ∀ v : World D, enableFPE false c v
      = (.raise (.runtime_error
          "Floating point exception trapping cannot be enabled for this build."), v) := by
    intro v
    rfl
  refine ⟨h1 w, ?_⟩
  intro k
  induction k with
  | zero => rfl
  | succ k ih => rw [Function.iterate_succ_apply', ih, h1]

/-- C9: on a build with `TRAP_FPE`, `enableFPE` returns normally; the trace is
untouched and the new trap mask is the old one with `FE_INVALID`,
`FE_DIVBYZERO` and `FE_OVERFLOW` or-ed in. These three traps are enabled, every
bit outside the three flags is as before, in particular the bits of
`FE_UNDERFLOW` and `FE_INEXACT` when these flags share no bit with the three;
a second call changes nothing. -/
theorem enableFPE_enables_three_traps (c : Fenv) (w : World D)
    (hU : c.FE_UNDERFLOW &&& (c.FE_INVALID ||| c.FE_DIVBYZERO ||| c.FE_OVERFLOW) = 0)
    (hI : c.FE_INEXACT &&& (c.FE_INVALID ||| c.FE_DIVBYZERO ||| c.FE_OVERFLOW) = 0) :
    ∃ w1 : World D,
      enableFPE true c w = (.ret (), w1)
      ∧ w1.trace = w.trace
      ∧ w1.fpTraps = w.fpTraps ||| (c.FE_INVALID ||| c.FE_DIVBYZERO ||| c.FE_OVERFLOW)
      ∧ w1.fpTraps &&& c.FE_INVALID = c.FE_INVALID
      ∧ w1.fpTraps &&& c.FE_DIVBYZERO = c.FE_DIVBYZERO
      ∧ w1.fpTraps &&& c.FE_OVERFLOW = c.FE_OVERFLOW
      ∧ w1.fpTraps &&& c.FE_UNDERFLOW = w.fpTraps &&& c.FE_UNDERFLOW
      ∧ w1.fpTraps &&& c.FE_INEXACT = w.fpTraps &&& c.FE_INEXACT
      ∧ (∀ k, (c.FE_INVALID ||| c.FE_DIVBYZERO ||| c.FE_OVERFLOW).testBit k = false →
          w1.fpTraps.testBit k = w.fpTraps.testBit k)
      ∧ enableFPE true c w1 = (.ret (), w1) := by
  refine ⟨{ w with fpTraps :=
      w.fpTraps ||| (c.FE_INVALID ||| c.FE_DIVBYZERO ||| c.FE_OVERFLOW) },
    rfl, rfl, rfl, ?_, ?_, ?_, ?_, ?_, ?_, ?_⟩
  · exact (or_mask_and_flag _ _ _ _).1
  · exact (or_mask_and_flag _ _ _ _).2.1
  · exact (or_mask_and_flag _ _ _ _).2.2
  · exact or_mask_and_disjoint _ _ _ hU
  · exact or_mask_and_disjoint _ _ _ hI
  · intro k hk
    show (w.fpTraps ||| (c.FE_INVALID ||| c.FE_DIVBYZERO ||| c.FE_OVERFLOW)).testBit k
      = w.fpTraps.testBit k
    rw [Nat.testBit_or, hk, Bool.or_false]
  · show ((Outcome.ret (), _) : Outcome Unit × World D) = _
    simp only [Nat.or_assoc, Nat.or_self]

/-- Witness of C9 with the x86 values of the macros, starting from a process
in which only the inexact trap (0x20) is enabled: the mask becomes 0x2d. -/
theorem enableFPE_enables_three_traps_witness :
    ∃ w1 : World Int,
      enableFPE true Fenv.x86 { trace := [], fpTraps := 0x20 } = (.ret (), w1)
      ∧ w1.fpTraps = 0x2d
      ∧ enableFPE true Fenv.x86 w1 = (.ret (), w1) := by
  obtain ⟨w1, h1, _, h3, _, _, _, _, _, _, h10⟩ :=
    enableFPE_enables_three_traps Fenv.x86 ({ trace := [], fpTraps := 0x20 } : World Int)
      (by decide) (by decide)
  exact ⟨w1, h1, by rw [h3]; decide, h10⟩

end FpeTheorems

section StAppTheorems

variable {D P : Type}

/-- C10: construction stores the given name (or fails when the base-class
constructor throws). On the constructed object, in every world, `getParGroup`
makes exactly the store lookup for the key given at construction and has that
lookup's outcome; `run` does nothing; and after either call the object still
holds the same name, so every later call behaves in the same way. -/
theorem StAppInterface_getParGroup_by_name (x : Extern D P) (a : String) (w : World D) :
    ((x.stAppCtor w.trace = .ok ()
        ∧ StAppInterface.ctor x a w = (.ret { m_appName := a }, w.log .stAppCtor))
      ∨ ∃ e, x.stAppCtor w.trace = .error e
          ∧ StAppInterface.ctor x a w = (.raise e, w.log .stAppCtor))
    ∧ (∀ w1 : World D,
        StAppInterface.getParGroup x { m_appName := a } w1
          = (Outcome.ofExcept
              ((x.getParGroup w1.trace a).map (fun g => (g, { m_appName := a }))),
             w1.log (.getParGroup a)))
    ∧ (∀ w1 : World D,
        StAppInterface.run { m_appName := a } w1 = (.ret ((), { m_appName := a }), w1)) := by
  refine ⟨?_, ?_, ?_⟩
  · cases hC : x.stAppCtor w.trace with
    | error e0 =>
      right
      exact ⟨e0, rfl, by
        simp [StAppInterface.ctor, bind, Prog.bind, Prog.extCall, Outcome.ofExcept, hC]⟩
    | ok u =>
      left
      exact ⟨rfl, by
        simp [StAppInterface.ctor, bind, Prog.bind, Prog.extCall, Outcome.ofExcept, hC,
          pure, Prog.ret]⟩
  · intro w1
    cases hG : x.getParGroup w1.trace a <;>
      simp [StAppInterface.getParGroup, bind, Prog.bind, Prog.extCall, Outcome.ofExcept, hG,
        pure, Prog.ret, Except.map]
  · intro w1
    rfl

end StAppTheorems

end pyLikelihood
